import Mathlib

/-!
Shallow embedding of the behaviour-tree robot-control runtime
(py_trees action nodes over a rosbridge transport) together with proofs
checking the natural-language specification against the code.

Modelling conventions:
* `py_trees.common.Status` becomes the inductive `BT.Status`.
* Machine floats become real numbers (`ℝ`); Python ints become `ℤ`.
* A published velocity command is a pair (linear x, angular z); an
  `update`/`terminate` call is modelled as a pure function returning its
  status together with the list of commands it published during the call.
* The shared rosbridge connection is modelled by the per-node flags the
  code actually consults (`ros` set, `ros_connected`) plus an invocation
  counter for `Ros.terminate`; whether a repeated terminate raises is left
  as an oracle parameter, since the transport is an external collaborator.
* Fallible construction (`raise ValueError`) becomes `Except String` or an
  explicit `Option String` error component.
-/

namespace BT

/-- Tick status of a behaviour, mirroring `py_trees.common.Status`
(the IDLE state is never returned by the `update` methods modelled here). -/
inductive Status where
  | running
  | success
  | failure
deriving DecidableEq, Repr

/-- A velocity command published on `/turtle1/cmd_vel`:
(linear.x, angular.z); all other components are always zero. -/
def Cmd : Type := ℝ × ℝ

/-! ### BaseActionNode: shared-connection shutdown (`base_action.py`, `run_bt.py`) -/

/-- The per-node connection state a `BaseActionNode` consults in `shutdown`:
`hasRos` models `self.ros is not None` and `rosConnected` models the
per-instance flag `self.ros_connected`. -/
structure BANode where
  hasRos : Bool
  rosConnected : Bool
deriving DecidableEq, Repr

/-- One `BaseActionNode.shutdown` call. `raises` tells whether the external
`self.ros.terminate()` call raises this time (the transport owns that
behaviour). Returns the node state afterwards and whether `terminate` was
invoked. On a raise the exception is caught and logged, so
`self.ros_connected = False` is skipped and nothing propagates. -/
def BANode.shutdownStep (raises : Bool) (n : BANode) : BANode × Bool :=
  if n.hasRos && n.rosConnected then
    (if raises then n else { n with rosConnected := false }, true)
  else
    (n, false)

/-- `shutdown_behavior_tree` (`run_bt.py`): walk the node list in order,
calling each node's `shutdown` (each call additionally wrapped in
`try/except`, so no exception stops the walk). `k` counts the
`Ros.terminate` invocations made so far on the shared connection; the
oracle `raises` says whether the `k`-th invocation raises. -/
def shutdownBehaviorTree (raises : ℕ → Bool) : List BANode → ℕ → List BANode × ℕ
  | [], k => ([], k)
  | n :: ns, k =>
    let step := n.shutdownStep (raises k)
    let k' := if step.2 then k + 1 else k
    let rest := shutdownBehaviorTree raises ns k'
    (step.1 :: rest.1, rest.2)

/-! ### SetPen (`primitives/set_pen.py`) -/

/-- State of a `SetPen` node as left by `SetPen.__init__` plus the base
class's connection flag. -/
structure SetPenState where
  name : String
  r : ℤ
  g : ℤ
  b : ℤ
  width : ℤ
  off : ℤ
  service_called : Bool
  service_success : Bool
  ros_connected : Bool
deriving DecidableEq, Repr

/-- `SetPen.__init__`: clamps the colour channels to 0–255 and the width to
at least 1, stores `off` as given; the node starts disconnected. -/
def SetPen.init (name : String) (r g b : ℤ) (width : ℤ) (off : ℤ) : SetPenState :=
  { name := name
    r := max 0 (min 255 r)
    g := max 0 (min 255 g)
    b := max 0 (min 255 b)
    width := max 1 width
    off := off
    service_called := false
    service_success := false
    ros_connected := false }

/-- Payload of the `turtlesim/SetPen` service request built in
`SetPen.update`. -/
structure PenRequest where
  r : ℤ
  g : ℤ
  b : ℤ
  width : ℤ
  off : ℤ
deriving DecidableEq, Repr

/-- The `ServiceRequest` dictionary `SetPen.update` sends: each field is
taken verbatim from the stored state. -/
def SetPen.request (s : SetPenState) : PenRequest :=
  { r := s.r, g := s.g, b := s.b, width := s.width, off := s.off }

/-- Outcome of the bounded wait on the `set_pen` service call: the success
callback fired, the error callback fired, or the 2-second timeout expired. -/
inductive RpcOutcome where
  | success
  | error
  | timeout
deriving DecidableEq, Repr

/-- `SetPen.update`: FAILURE when not connected; otherwise send the request
and busy-wait; SUCCESS only if the success callback fired before the
timeout, FAILURE on an explicit error or on timeout (exceptions are caught
and also yield FAILURE). -/
def SetPen.update (s : SetPenState) (outcome : RpcOutcome) : Status :=
  if s.ros_connected then
    match outcome with
    | .success => .success
    | .error => .failure
    | .timeout => .failure
  else .failure

/-! ### GoToPose geometry helpers (`primitives/goto_pose.py`) -/

/-- `math.atan2 y x` over the reals: the argument of the complex number
`x + y i`, which lies in `(-π, π]` and is `0` at the origin, exactly as
`atan2`. -/
noncomputable def atan2 (y x : ℝ) : ℝ := Complex.arg (x + y * Complex.I)

/-- First loop of `GoToPose._normalize_angle`:
`while angle > math.pi: angle -= 2 * math.pi`. -/
noncomputable def normLoopDown (a : ℝ) : ℝ :=
  if h : Real.pi < a then normLoopDown (a - 2 * Real.pi) else a
termination_by Nat.ceil ((a - Real.pi) / (2 * Real.pi))
decreasing_by
  have hpi := Real.pi_pos
  have hx : (0:ℝ) < (a - Real.pi) / (2 * Real.pi) := by
    apply div_pos <;> linarith
  have hpos : 0 < Nat.ceil ((a - Real.pi) / (2 * Real.pi)) := Nat.ceil_pos.mpr hx
  have hrw : (a - 2 * Real.pi - Real.pi) / (2 * Real.pi)
      = (a - Real.pi) / (2 * Real.pi) - 1 := by
    field_simp
    ring
  have hle : Nat.ceil ((a - 2 * Real.pi - Real.pi) / (2 * Real.pi))
      ≤ Nat.ceil ((a - Real.pi) / (2 * Real.pi)) - 1 := by
    rw [hrw, Nat.ceil_le, Nat.cast_sub hpos, Nat.cast_one]
    have := Nat.le_ceil ((a - Real.pi) / (2 * Real.pi))
    linarith
  exact lt_of_le_of_lt hle (Nat.sub_lt hpos one_pos)

/-- Second loop of `GoToPose._normalize_angle`:
`while angle < -math.pi: angle += 2 * math.pi`. -/
noncomputable def normLoopUp (a : ℝ) : ℝ :=
  if h : a < -Real.pi then normLoopUp (a + 2 * Real.pi) else a
termination_by Nat.ceil ((-Real.pi - a) / (2 * Real.pi))
decreasing_by
  have hpi := Real.pi_pos
  have hx : (0:ℝ) < (-Real.pi - a) / (2 * Real.pi) := by
    apply div_pos <;> linarith
  have hpos : 0 < Nat.ceil ((-Real.pi - a) / (2 * Real.pi)) := Nat.ceil_pos.mpr hx
  have hrw : (-Real.pi - (a + 2 * Real.pi)) / (2 * Real.pi)
      = (-Real.pi - a) / (2 * Real.pi) - 1 := by
    field_simp
    ring
  have hle : Nat.ceil ((-Real.pi - (a + 2 * Real.pi)) / (2 * Real.pi))
      ≤ Nat.ceil ((-Real.pi - a) / (2 * Real.pi)) - 1 := by
    rw [hrw, Nat.ceil_le, Nat.cast_sub hpos, Nat.cast_one]
    have := Nat.le_ceil ((-Real.pi - a) / (2 * Real.pi))
    linarith
  exact lt_of_le_of_lt hle (Nat.sub_lt hpos one_pos)

/-- `GoToPose._normalize_angle`: run the subtracting loop, then the adding
loop. -/
noncomputable def GoToPose.normalizeAngle (a : ℝ) : ℝ := normLoopUp (normLoopDown a)

/-! ### GoToPose node (`primitives/goto_pose.py`) -/

/-- State of a `GoToPose` node: the immutable target and tolerances from
`__init__`, the live pose fed by the subscription callback, the control
parameters, the base class's connection flag and whether the
`/turtle1/cmd_vel` publisher has been created (`self.cmd_vel_pub is not
None`). -/
structure GoToPoseState where
  name : String
  target_x : ℝ
  target_y : ℝ
  target_theta : Option ℝ
  tolerance_pos : ℝ
  tolerance_angle : ℝ
  current_x : ℝ
  current_y : ℝ
  current_theta : ℝ
  linear_speed_gain : ℝ
  angular_speed_gain : ℝ
  max_linear_speed : ℝ
  max_angular_speed : ℝ
  ros_connected : Bool
  cmdVelPub : Bool

/-- `GoToPose.__init__` (the Python defaults `tolerance_pos = 0.1` and
`tolerance_angle = 0.1` are passed explicitly by callers here): pose starts
at the origin, gains are 1/2/2/2, nothing is connected or published yet. -/
noncomputable def GoToPose.init (name : String) (x y : ℝ) (theta : Option ℝ)
    (tolerance_pos tolerance_angle : ℝ) : GoToPoseState :=
  { name := name
    target_x := x
    target_y := y
    target_theta := theta
    tolerance_pos := tolerance_pos
    tolerance_angle := tolerance_angle
    current_x := 0
    current_y := 0
    current_theta := 0
    linear_speed_gain := 1
    angular_speed_gain := 2
    max_linear_speed := 2
    max_angular_speed := 2
    ros_connected := false
    cmdVelPub := false }

/-- The clamp `max(min(v, limit), -limit)` used on angular velocities. -/
def clamp (v limit : ℝ) : ℝ := max (min v limit) (-limit)

/-- `GoToPose._publish_velocity`: publishes one Twist if the publisher
exists, else does nothing. -/
def GoToPose.publishVelocity (s : GoToPoseState) (lin ang : ℝ) : List Cmd :=
  if s.cmdVelPub then [(lin, ang)] else []

/-- `GoToPose._stop_turtle`: publish a zero velocity command. -/
def GoToPose.stopTurtle (s : GoToPoseState) : List Cmd :=
  GoToPose.publishVelocity s 0 0

/-- `GoToPose._rotate_to_angle`: rotate in place with clamped proportional
angular velocity. -/
def GoToPose.rotateToAngle (s : GoToPoseState) (angle_error : ℝ) : List Cmd :=
  GoToPose.publishVelocity s 0 (clamp (s.angular_speed_gain * angle_error) s.max_angular_speed)

/-- Euclidean distance from the latest known pose to the target, as computed
at the top of `GoToPose.update`. -/
noncomputable def GoToPoseState.dist (s : GoToPoseState) : ℝ :=
  Real.sqrt ((s.target_x - s.current_x) ^ 2 + (s.target_y - s.current_y) ^ 2)

/-- The normalized bearing error `_normalize_angle(atan2(dy, dx) - current_theta)`
computed in the far-from-target branch of `GoToPose.update`. -/
noncomputable def GoToPoseState.bearingErr (s : GoToPoseState) : ℝ :=
  GoToPose.normalizeAngle
    (atan2 (s.target_y - s.current_y) (s.target_x - s.current_x) - s.current_theta)

/-- `GoToPose.update`: FAILURE when not connected; inside tolerance either
align to the optional target heading or stop and succeed; outside tolerance
rotate in place when the bearing error exceeds π/2, otherwise drive forward
with heading correction, returning RUNNING. The second component is the
list of velocity commands published during the call. -/
noncomputable def GoToPose.update (s : GoToPoseState) : Status × List Cmd :=
  if s.ros_connected then
    if s.dist < s.tolerance_pos then
      match s.target_theta with
      | some tt =>
        let angle_error := GoToPose.normalizeAngle (tt - s.current_theta)
        if |angle_error| < s.tolerance_angle then (.success, GoToPose.stopTurtle s)
        else (.running, GoToPose.rotateToAngle s angle_error)
      | none => (.success, GoToPose.stopTurtle s)
    else
      if Real.pi / 2 < |s.bearingErr| then
        (.running, GoToPose.rotateToAngle s s.bearingErr)
      else
        (.running, GoToPose.publishVelocity s
          (min (s.linear_speed_gain * s.dist) s.max_linear_speed)
          (clamp (s.angular_speed_gain * s.bearingErr) s.max_angular_speed))
  else (.failure, [])

/-- `GoToPose.terminate`: stop the turtle whatever the new status is
(`super().terminate` is a no-op). -/
def GoToPose.terminate (s : GoToPoseState) (newStatus : Status) : List Cmd :=
  GoToPose.stopTurtle s

/-! ### MoveDistance node (`primitives/move_distance.py`) -/

/-- State of a `MoveDistance` node; `start_x`/`start_y` are `None` until
`initialise` records them. -/
structure MoveDistanceState where
  name : String
  distance : ℝ
  speed : ℝ
  current_x : ℝ
  current_y : ℝ
  current_theta : ℝ
  start_x : Option ℝ
  start_y : Option ℝ
  ros_connected : Bool
  cmdVelPub : Bool

/-- `MoveDistance.__init__`: stores the signed distance, forces the speed
positive, leaves the start reference unset. -/
noncomputable def MoveDistance.init (name : String) (distance speed : ℝ) : MoveDistanceState :=
  { name := name
    distance := distance
    speed := |speed|
    current_x := 0
    current_y := 0
    current_theta := 0
    start_x := none
    start_y := none
    ros_connected := false
    cmdVelPub := false }

/-- `MoveDistance._publish_velocity`. -/
def MoveDistance.publishVelocity (s : MoveDistanceState) (lin ang : ℝ) : List Cmd :=
  if s.cmdVelPub then [(lin, ang)] else []

/-- `MoveDistance.initialise`: record the current pose as the start
reference. -/
noncomputable def MoveDistance.initialise (s : MoveDistanceState) : MoveDistanceState :=
  { s with start_x := some s.current_x, start_y := some s.current_y }

/-- `MoveDistance.update`: FAILURE when not connected, FAILURE when the
start reference is unset, SUCCESS (stopping) once the displacement from the
start reaches the requested absolute distance, else RUNNING with constant
signed forward velocity. -/
noncomputable def MoveDistance.update (s : MoveDistanceState) : Status × List Cmd :=
  if s.ros_connected then
    match s.start_x, s.start_y with
    | some sx, some sy =>
      let traveled := Real.sqrt ((s.current_x - sx) ^ 2 + (s.current_y - sy) ^ 2)
      if |s.distance| ≤ traveled then
        (.success, MoveDistance.publishVelocity s 0 0)
      else
        (.running, MoveDistance.publishVelocity s
          (if 0 < s.distance then s.speed else -s.speed) 0)
    | _, _ => (.failure, [])
  else (.failure, [])

/-! ### CheckBounds node (`primitives/check_bounds.py`) -/

/-- State of a `CheckBounds` sensing node (position defaults to the
turtlesim spawn point until feedback arrives). -/
structure CheckBoundsState where
  name : String
  min_x : ℝ
  max_x : ℝ
  min_y : ℝ
  max_y : ℝ
  current_x : ℝ
  current_y : ℝ
  pose_received : Bool
  ros_connected : Bool

/-- `CheckBounds.update`: FAILURE when not connected, RUNNING until the
first pose message, then SUCCESS inside the inclusive rectangle and
FAILURE outside. -/
noncomputable def CheckBounds.update (s : CheckBoundsState) : Status :=
  if s.ros_connected then
    if s.pose_received then
      if s.min_x ≤ s.current_x ∧ s.current_x ≤ s.max_x
          ∧ s.min_y ≤ s.current_y ∧ s.current_y ≤ s.max_y then
        .success
      else .failure
    else .running
  else .failure

/-! ### GetPose node (`primitives/get_pose.py`) -/

/-- A pose record as stored by the `GetPose` subscription callback. -/
structure Pose where
  x : ℝ
  y : ℝ
  theta : ℝ
  linear_velocity : ℝ
  angular_velocity : ℝ

/-- State of a `GetPose` sensing node. -/
structure GetPoseState where
  name : String
  blackboard_key : String
  current_pose : Option Pose
  pose_received : Bool
  ros_connected : Bool

/-- `GetPose.update`: FAILURE when not connected; once a pose has been
received, write it to the blackboard under the configured key (the second
component) and return SUCCESS; otherwise RUNNING. -/
def GetPose.update (s : GetPoseState) : Status × Option (String × Pose) :=
  if s.ros_connected then
    if s.pose_received then
      match s.current_pose with
      | some p => (.success, some (s.blackboard_key, p))
      | none => (.running, none)
    else (.running, none)
  else (.failure, none)

/-- `BaseActionNode.update`: FAILURE when not connected; a connected call on
the abstract base raises `NotImplementedError` (subclasses must override). -/
def BaseActionNode.update (ros_connected : Bool) : Except String Status :=
  if ros_connected then .error "NotImplementedError" else .ok .failure

/-! ### Composite builders (`composites/draw_shape.py`, `composites/patrol_waypoints.py`) -/

/-- A child node added to one of the composite builders. -/
inductive TreeChild where
  | setPen (s : SetPenState)
  | goToPose (s : GoToPoseState)

/-- Python's `str.lower()` (as used on `shape_type`): lower-case every
character. -/
def strLower (s : String) : String := ⟨s.data.map Char.toLower⟩

/-- `DrawShape._generate_circle_waypoints`. -/
noncomputable def DrawShape.circleWaypoints (cx cy size : ℝ) (segments : ℕ) :
    List (ℝ × ℝ) :=
  (List.range (segments + 1)).map fun i =>
    let angle := (2 * Real.pi * i) / segments
    (cx + size * Real.cos angle, cy + size * Real.sin angle)

/-- `DrawShape._generate_square_waypoints`. -/
noncomputable def DrawShape.squareWaypoints (cx cy size : ℝ) : List (ℝ × ℝ) :=
  let half := size / 2
  [(cx - half, cy - half), (cx + half, cy - half),
   (cx + half, cy + half), (cx - half, cy + half),
   (cx - half, cy - half)]

/-- `DrawShape._generate_triangle_waypoints`. -/
noncomputable def DrawShape.triangleWaypoints (cx cy size : ℝ) : List (ℝ × ℝ) :=
  let height := size * Real.sqrt 3 / 2
  [(cx, cy + 2 * height / 3),
   (cx - size / 2, cy - height / 3),
   (cx + size / 2, cy - height / 3),
   (cx, cy + 2 * height / 3)]

/-- The `GoToPose` children `DrawShape._build_shape` adds, one per
waypoint, with no orientation requirement and default tolerances. -/
noncomputable def DrawShape.gotoChildren (shapeType : String) (wps : List (ℝ × ℝ)) : List TreeChild :=
  wps.mapIdx fun i wp =>
    .goToPose (GoToPose.init (shapeType ++ "_point_" ++ toString i) wp.1 wp.2 none 0.1 0.1)

/-- `DrawShape.__init__` / `DrawShape._build_shape`: lower-case the shape
name, add the `SetPen` child first, then either extend with the waypoint
children of a known shape, or stop with a `ValueError` (second component)
leaving only the pen child added. -/
noncomputable def DrawShape.buildShape (shapeType : String) (size cx cy : ℝ)
    (color : ℤ × ℤ × ℤ) (width : ℤ) (segments : ℕ) :
    List TreeChild × Option String :=
  let st := strLower shapeType
  let penChild := TreeChild.setPen
    (SetPen.init ("SetPen_" ++ st) color.1 color.2.1 color.2.2 width 0)
  if st = "circle" then
    (penChild :: DrawShape.gotoChildren st (DrawShape.circleWaypoints cx cy size segments), none)
  else if st = "square" then
    (penChild :: DrawShape.gotoChildren st (DrawShape.squareWaypoints cx cy size), none)
  else if st = "triangle" then
    (penChild :: DrawShape.gotoChildren st (DrawShape.triangleWaypoints cx cy size), none)
  else
    ([penChild], some ("Unknown shape type: " ++ st))

/-- Parse one waypoint tuple in `PatrolWaypoints._build_patrol`:
`(x, y)` or `(x, y, theta)`; anything else is a `ValueError`. -/
noncomputable def parseWaypoint (w : List ℝ) : Except String (ℝ × ℝ × Option ℝ) :=
  match w with
  | [x, y] => .ok (x, y, none)
  | [x, y, t] => .ok (x, y, some t)
  | _ => .error "Invalid waypoint format"

/-- The enumerated waypoint loop of `PatrolWaypoints._build_patrol`: one
`GoToPose` child per waypoint, named by index, failing on the first
malformed waypoint. -/
noncomputable def PatrolWaypoints.buildChildren : ℕ → List (List ℝ) → Except String (List TreeChild)
  | _, [] => .ok []
  | i, w :: rest => do
    let p ← parseWaypoint w
    let cs ← PatrolWaypoints.buildChildren (i + 1) rest
    .ok (.goToPose (GoToPose.init ("Waypoint_" ++ toString i) p.1 p.2.1 p.2.2 0.1 0.1) :: cs)

/-- The return-to-start child appended when `loop` is set: the first
waypoint again, destructured as a pair when its length is 2 and as a
triple otherwise (any other arity is an unpacking error). -/
noncomputable def PatrolWaypoints.loopChild (first : List ℝ) : Except String TreeChild :=
  match first with
  | [x, y] => .ok (.goToPose (GoToPose.init "Return_to_start" x y none 0.1 0.1))
  | [x, y, t] => .ok (.goToPose (GoToPose.init "Return_to_start" x y (some t) 0.1 0.1))
  | _ => .error "cannot unpack first waypoint"

/-- Result of constructing a `PatrolWaypoints` composite. -/
structure PatrolWaypointsState where
  name : String
  waypoints : List (List ℝ)
  loop : Bool
  children : List TreeChild

/-- `PatrolWaypoints.__init__` / `_build_patrol`: reject an empty waypoint
list, add one `GoToPose` child per waypoint, and when `loop` is set (and
the list is non-empty) append a final child returning to the first
waypoint. -/
noncomputable def PatrolWaypoints.init (name : String) (waypoints : List (List ℝ)) (loop : Bool) :
    Except String PatrolWaypointsState :=
  if waypoints.isEmpty then .error "Waypoints list cannot be empty"
  else do
    let cs ← PatrolWaypoints.buildChildren 0 waypoints
    match waypoints with
    | [] => .ok ⟨name, waypoints, loop, cs⟩
    | w0 :: _ =>
      if loop then do
        let lc ← PatrolWaypoints.loopChild w0
        .ok ⟨name, waypoints, loop, cs ++ [lc]⟩
      else .ok ⟨name, waypoints, loop, cs⟩

/-! ## Theorems -/

theorem normLoopDown_le (a : ℝ) : normLoopDown a ≤ Real.pi := by
  induction a using normLoopDown.induct with
  | case1 a h ih => rw [normLoopDown, dif_pos h]; exact ih
  | case2 a h => rw [normLoopDown, dif_neg h]; exact le_of_not_lt h

theorem normLoopDown_ge (a : ℝ) (h : -Real.pi ≤ a) : -Real.pi ≤ normLoopDown a := by
  induction a using normLoopDown.induct with
  | case1 a h1 ih =>
    rw [normLoopDown, dif_pos h1]
    exact ih (by have := Real.pi_pos; linarith)
  | case2 a h1 => rw [normLoopDown, dif_neg h1]; exact h

theorem normLoopDown_congr (a : ℝ) : ∃ k : ℤ, normLoopDown a = a + 2 * Real.pi * k := by
  induction a using normLoopDown.induct with
  | case1 a h ih =>
    obtain ⟨k, hk⟩ := ih
    refine ⟨k - 1, ?_⟩
    rw [normLoopDown, dif_pos h, hk]
    push_cast
    ring
  | case2 a h => exact ⟨0, by rw [normLoopDown, dif_neg h]; push_cast; ring⟩

theorem normLoopUp_ge (a : ℝ) : -Real.pi ≤ normLoopUp a := by
  induction a using normLoopUp.induct with
  | case1 a h ih => rw [normLoopUp, dif_pos h]; exact ih
  | case2 a h => rw [normLoopUp, dif_neg h]; exact le_of_not_lt h

theorem normLoopUp_le (a : ℝ) (h : a ≤ Real.pi) : normLoopUp a ≤ Real.pi := by
  induction a using normLoopUp.induct with
  | case1 a h1 ih =>
    rw [normLoopUp, dif_pos h1]
    exact ih (by have := Real.pi_pos; linarith)
  | case2 a h1 => rw [normLoopUp, dif_neg h1]; exact h

theorem normLoopUp_congr (a : ℝ) : ∃ k : ℤ, normLoopUp a = a + 2 * Real.pi * k := by
  induction a using normLoopUp.induct with
  | case1 a h ih =>
    obtain ⟨k, hk⟩ := ih
    refine ⟨k + 1, ?_⟩
    rw [normLoopUp, dif_pos h, hk]
    push_cast
    ring
  | case2 a h => exact ⟨0, by rw [normLoopUp, dif_neg h]; push_cast; ring⟩

theorem normalizeAngle_mem (a : ℝ) :
    -Real.pi ≤ GoToPose.normalizeAngle a ∧ GoToPose.normalizeAngle a ≤ Real.pi :=
  ⟨normLoopUp_ge _, normLoopUp_le _ (normLoopDown_le a)⟩

theorem normalizeAngle_congr (a : ℝ) :
    ∃ k : ℤ, GoToPose.normalizeAngle a = a + 2 * Real.pi * k := by
  obtain ⟨k1, hk1⟩ := normLoopDown_congr a
  obtain ⟨k2, hk2⟩ := normLoopUp_congr (normLoopDown a)
  exact ⟨k1 + k2, by rw [GoToPose.normalizeAngle, hk2, hk1]; push_cast; ring⟩

theorem normalizeAngle_eq_self (a : ℝ) (h1 : -Real.pi ≤ a) (h2 : a ≤ Real.pi) :
    GoToPose.normalizeAngle a = a := by
  rw [GoToPose.normalizeAngle, normLoopDown, dif_neg (not_lt.mpr h2),
    normLoopUp, dif_neg (not_lt.mpr h1)]

/-! ## Claim C1: shared-connection termination on tree shutdown -/

/-- C1 counterexample: with two connected action nodes, retiring the tree
invokes `Ros.terminate` on the shared connection twice — once from each
node's `shutdown`, because `ros_connected` is a per-instance flag — so the
connection is NOT terminated exactly once, and the first termination
happens during the first node's shutdown, before the second node has been
given a chance to shut down. -/
theorem shutdown_two_nodes_two_terminations :
    (shutdownBehaviorTree (fun _ => false) [⟨true, true⟩, ⟨true, true⟩] 0).2 = 2
    ∧ (shutdownBehaviorTree (fun _ => false) [⟨true, true⟩, ⟨true, true⟩] 0).2 ≠ 1 := by
  constructor <;> decide

/-- C1 amended: retiring the tree attempts to terminate the shared
connection once per node whose `ros` handle is set and whose own
`ros_connected` flag is still true (not exactly once overall); every
attempt is wrapped in exception handlers, so even if a repeated disconnect
on the already-terminated connection raises, the walk absorbs it and
shutdown completes for every node. -/
theorem shutdown_terminate_invocation_count (raises : ℕ → Bool) (nodes : List BANode) (k : ℕ) :
    (shutdownBehaviorTree raises nodes k).2
      = k + (nodes.filter fun n => n.hasRos && n.rosConnected).length := by
  induction nodes generalizing k with
  | nil => simp [shutdownBehaviorTree]
  | cons n ns ih =>
    by_cases h : n.hasRos && n.rosConnected
    · simp [shutdownBehaviorTree, BANode.shutdownStep, h, ih]
      omega
    · simp [shutdownBehaviorTree, BANode.shutdownStep, h, ih]

/-! ## Claim C3: MoveDistance.update without a start reference -/

/-- C3: on a connected `MoveDistance` node whose start reference was never
captured (`start_x`/`start_y` still `None`), `update` returns FAILURE —
not RUNNING, publishing nothing and raising nothing. -/
theorem moveDistance_update_without_start_failure (s : MoveDistanceState)
    (hc : s.ros_connected = true) (h : s.start_x = none ∨ s.start_y = none) :
    MoveDistance.update s = (.failure, []) := by
  rcases h with h | h
  · simp [MoveDistance.update, hc, h]
  · rcases hx : s.start_x with _ | sx <;> simp [MoveDistance.update, hc, h, hx]

/-- C3 witness: a freshly constructed `MoveDistance` node that was set up
(connected) but never initialised returns FAILURE from `update`. -/
theorem moveDistance_update_without_start_failure_witness :
    MoveDistance.update { MoveDistance.init "move" 1 1 with ros_connected := true }
      = (.failure, []) :=
  moveDistance_update_without_start_failure _ rfl (Or.inl rfl)

/-! ## Claim C5: update while disconnected returns FAILURE -/

/-- C5: for every action or sensing node — the abstract base, `GoToPose`,
`MoveDistance`, `CheckBounds`, `SetPen` (whatever the RPC outcome) and
`GetPose` — calling `update` while the rosbridge connection is not
established returns FAILURE and raises nothing (the base class's
`NotImplementedError` is only reachable when connected). -/
theorem update_disconnected_returns_failure :
    (∀ b : Bool, b = false → BaseActionNode.update b = .ok .failure)
    ∧ (∀ s : GoToPoseState, s.ros_connected = false →
        GoToPose.update s = (.failure, []))
    ∧ (∀ s : MoveDistanceState, s.ros_connected = false →
        MoveDistance.update s = (.failure, []))
    ∧ (∀ s : CheckBoundsState, s.ros_connected = false →
        CheckBounds.update s = .failure)
    ∧ (∀ (s : SetPenState) (o : RpcOutcome), s.ros_connected = false →
        SetPen.update s o = .failure)
    ∧ (∀ s : GetPoseState, s.ros_connected = false →
        GetPose.update s = (.failure, none)) := by
  refine ⟨?_, ?_, ?_, ?_, ?_, ?_⟩
  · intro b hb; simp [BaseActionNode.update, hb]
  · intro s hs; simp [GoToPose.update, hs]
  · intro s hs; simp [MoveDistance.update, hs]
  · intro s hs; simp [CheckBounds.update, hs]
  · intro s o hs; simp [SetPen.update, hs]
  · intro s hs; simp [GetPose.update, hs]

/-- C5 witness: freshly constructed (hence disconnected) nodes of every
kind return FAILURE from `update`. -/
theorem update_disconnected_returns_failure_witness :
    BaseActionNode.update false = .ok .failure
    ∧ GoToPose.update (GoToPose.init "goto" 1 1 none 0.1 0.1) = (.failure, [])
    ∧ MoveDistance.update (MoveDistance.init "move" 1 1) = (.failure, [])
    ∧ CheckBounds.update ⟨"bounds", 1, 10, 1, 10, 5.5, 5.5, false, false⟩ = .failure
    ∧ SetPen.update (SetPen.init "pen" 255 255 255 3 0) .timeout = .failure
    ∧ GetPose.update ⟨"pose", "current_pose", none, false, false⟩ = (.failure, none) :=
  ⟨update_disconnected_returns_failure.1 false rfl,
   update_disconnected_returns_failure.2.1 _ rfl,
   update_disconnected_returns_failure.2.2.1 _ rfl,
   update_disconnected_returns_failure.2.2.2.1 _ rfl,
   update_disconnected_returns_failure.2.2.2.2.1 _ .timeout rfl,
   update_disconnected_returns_failure.2.2.2.2.2 _ rfl⟩

/-! ## Claim C4: GoToPose.terminate publishes a stop command -/

/-- C4 counterexample: on a `GoToPose` node whose `/turtle1/cmd_vel`
publisher was never created (`cmd_vel_pub is None`, as after `__init__`
without a successful `setup`), `terminate` publishes nothing at all —
`_publish_velocity` silently drops the command — so it is not the case
that terminate publishes a stop command for EVERY `GoToPose` node. -/
theorem gotoPose_terminate_without_publisher_silent :
    GoToPose.terminate (GoToPose.init "goto" 3 3 none 0.1 0.1) .running = []
    ∧ ((0:ℝ), (0:ℝ)) ∉ GoToPose.terminate (GoToPose.init "goto" 3 3 none 0.1 0.1) .running := by
  constructor
  · rfl
  · simp [GoToPose.terminate, GoToPose.stopTurtle, GoToPose.publishVelocity, GoToPose.init]

/-- C4 amended: for every `GoToPose` node whose velocity publisher exists
(as it does once `setup` has succeeded), `terminate` with any new status —
SUCCESS, FAILURE, or preemption from RUNNING — publishes exactly the stop
command (zero linear and zero angular velocity). -/
theorem gotoPose_terminate_publishes_stop (s : GoToPoseState)
    (hp : s.cmdVelPub = true) (newStatus : Status) :
    GoToPose.terminate s newStatus = [((0:ℝ), (0:ℝ))] := by
  simp [GoToPose.terminate, GoToPose.stopTurtle, GoToPose.publishVelocity, hp]

/-- C4 witness: a set-up `GoToPose` node publishes the stop command when
preempted from RUNNING. -/
theorem gotoPose_terminate_publishes_stop_witness :
    GoToPose.terminate
      { GoToPose.init "goto" 3 3 none 0.1 0.1 with cmdVelPub := true } .running
      = [((0:ℝ), (0:ℝ))] :=
  gotoPose_terminate_publishes_stop _ rfl .running

/-! ## Claim C8: SetPen construction clamps colours and width -/

/-- C8: for arbitrary integer inputs, `SetPen.__init__` stores each colour
channel clamped into [0, 255] and the width clamped to at least 1;
construction is total (never rejects), silently correcting out-of-range
inputs. -/
theorem setPen_init_clamps (name : String) (r g b width off : ℤ) :
    (0 ≤ (SetPen.init name r g b width off).r
      ∧ (SetPen.init name r g b width off).r ≤ 255
      ∧ (SetPen.init name r g b width off).r = max 0 (min 255 r))
    ∧ (0 ≤ (SetPen.init name r g b width off).g
      ∧ (SetPen.init name r g b width off).g ≤ 255
      ∧ (SetPen.init name r g b width off).g = max 0 (min 255 g))
    ∧ (0 ≤ (SetPen.init name r g b width off).b
      ∧ (SetPen.init name r g b width off).b ≤ 255
      ∧ (SetPen.init name r g b width off).b = max 0 (min 255 b))
    ∧ (1 ≤ (SetPen.init name r g b width off).width
      ∧ (SetPen.init name r g b width off).width = max 1 width) := by
  simp [SetPen.init]

/-! ## Claim C10: the off flag is stored and sent verbatim -/

/-- C10: `SetPen.__init__` stores the `off` flag exactly as given — any
integer, not only 0 or 1 — and `SetPen.update` sends it verbatim in the
`turtlesim/SetPen` service request, in contrast with the colour channels,
which are corrected (witness the clamped red channel for input 300). -/
theorem setPen_off_unvalidated :
    (∀ (name : String) (r g b width off : ℤ),
      (SetPen.init name r g b width off).off = off
      ∧ (SetPen.request (SetPen.init name r g b width off)).off = off)
    ∧ (SetPen.init "pen" 300 0 0 3 7).off = 7
    ∧ (SetPen.init "pen" 300 0 0 3 7).r = 255 := by
  refine ⟨fun name r g b width off => ⟨rfl, rfl⟩, rfl, by decide⟩

/-! ## Claim C7: angle normalization -/

/-- C7: the angle-normalization function is total (it is a Lean function,
so it terminates on every real input) and returns a value in the closed
interval [−π, π] that differs from the input by an integer multiple of 2π. -/
theorem normalizeAngle_range_and_congruence (a : ℝ) :
    -Real.pi ≤ GoToPose.normalizeAngle a
    ∧ GoToPose.normalizeAngle a ≤ Real.pi
    ∧ ∃ k : ℤ, GoToPose.normalizeAngle a - a = 2 * Real.pi * k := by
  refine ⟨(normalizeAngle_mem a).1, (normalizeAngle_mem a).2, ?_⟩
  obtain ⟨k, hk⟩ := normalizeAngle_congr a
  exact ⟨k, by rw [hk]; ring⟩

/-! ## Claim C2: DrawShape with an unknown shape type -/

/-- C2 counterexample: constructing a `DrawShape` with the unknown shape
type "hexagon" does raise at construction time, but at the moment the
error is raised the composite already has one child — the `SetPen` node
added before the shape type is validated — so it is false that no child
node has been added when the error occurs. -/
theorem drawShape_unknown_shape_child_count :
    (DrawShape.buildShape "hexagon" 1 5.5 5.5 (255, 255, 255) 3 36).2.isSome = true
    ∧ (DrawShape.buildShape "hexagon" 1 5.5 5.5 (255, 255, 255) 3 36).1.length = 1 := by
  exact ⟨rfl, by decide⟩

/-- C2 amended: constructing a `DrawShape` whose lower-cased shape type is
none of "circle", "square", "triangle" raises a `ValueError` at
construction time, before any tick and before any waypoint child is
created; at the moment of the error the composite holds exactly the one
pen-setup child added first. -/
theorem drawShape_unknown_shape_errors (shapeType : String) (size cx cy : ℝ)
    (color : ℤ × ℤ × ℤ) (width : ℤ) (segments : ℕ)
    (h1 : strLower shapeType ≠ "circle") (h2 : strLower shapeType ≠ "square")
    (h3 : strLower shapeType ≠ "triangle") :
    DrawShape.buildShape shapeType size cx cy color width segments
      = ([TreeChild.setPen (SetPen.init ("SetPen_" ++ strLower shapeType)
            color.1 color.2.1 color.2.2 width 0)],
         some ("Unknown shape type: " ++ strLower shapeType)) := by
  simp [DrawShape.buildShape, h1, h2, h3]

/-- C2 witness: the amended statement at the concrete shape type
"hexagon". -/
theorem drawShape_unknown_shape_errors_witness :
    DrawShape.buildShape "hexagon" 1 5.5 5.5 (255, 255, 255) 3 36
      = ([TreeChild.setPen (SetPen.init "SetPen_hexagon" 255 255 255 3 0)],
         some "Unknown shape type: hexagon") :=
  drawShape_unknown_shape_errors "hexagon" 1 5.5 5.5 (255, 255, 255) 3 36
    (by decide) (by decide) (by decide)

/-! ## Claim C9: PatrolWaypoints child counts -/

/-- A waypoint tuple the source accepts: `(x, y)` or `(x, y, theta)`. -/
def validWaypoint (w : List ℝ) : Prop := w.length = 2 ∨ w.length = 3

/-- C9: a `PatrolWaypoints` composite built from 3 valid waypoints has
exactly 4 `GoToPose` children when `loop = true` — one per waypoint plus a
return-to-first child targeting the first waypoint's coordinates — and
exactly 3 when `loop = false`. -/
theorem patrolWaypoints_three_waypoint_children (name : String) (w1 w2 w3 : List ℝ)
    (h1 : validWaypoint w1) (h2 : validWaypoint w2) (h3 : validWaypoint w3) :
    (∃ st : PatrolWaypointsState,
      PatrolWaypoints.init name [w1, w2, w3] true = .ok st
      ∧ st.children.length = 4
      ∧ ∃ g : GoToPoseState, st.children.getLast? = some (.goToPose g)
          ∧ g.target_x = w1.headI ∧ g.target_y = w1.tail.headI)
    ∧ (∃ st : PatrolWaypointsState,
      PatrolWaypoints.init name [w1, w2, w3] false = .ok st
      ∧ st.children.length = 3) := by
  obtain ⟨x1, y1, hw1⟩ | ⟨x1, y1, t1, hw1⟩ :=
    h1.imp List.length_eq_two.mp List.length_eq_three.mp <;>
  obtain ⟨x2, y2, hw2⟩ | ⟨x2, y2, t2, hw2⟩ :=
    h2.imp List.length_eq_two.mp List.length_eq_three.mp <;>
  obtain ⟨x3, y3, hw3⟩ | ⟨x3, y3, t3, hw3⟩ :=
    h3.imp List.length_eq_two.mp List.length_eq_three.mp <;>
  subst hw1 hw2 hw3 <;>
  exact ⟨⟨_, rfl, rfl, _, rfl, rfl, rfl⟩, ⟨_, rfl, rfl⟩⟩

/-- C9 witness: three concrete two-element waypoints; with `loop = true`
the composite has 4 children and the last one targets the first waypoint. -/
theorem patrolWaypoints_three_waypoint_children_witness :
    (∃ st : PatrolWaypointsState,
      PatrolWaypoints.init "patrol" [[1, 2], [3, 4], [5, 6]] true = .ok st
      ∧ st.children.length = 4
      ∧ ∃ g : GoToPoseState, st.children.getLast? = some (.goToPose g)
          ∧ g.target_x = ([1, 2] : List ℝ).headI
          ∧ g.target_y = ([1, 2] : List ℝ).tail.headI)
    ∧ (∃ st : PatrolWaypointsState,
      PatrolWaypoints.init "patrol" [[1, 2], [3, 4], [5, 6]] false = .ok st
      ∧ st.children.length = 3) :=
  patrolWaypoints_three_waypoint_children "patrol" [1, 2] [3, 4] [5, 6]
    (Or.inl rfl) (Or.inl rfl) (Or.inl rfl)

/-! ## Claim C6: GoToPose.update control law -/

/-- C6: on a connected, set-up `GoToPose` node, when the Euclidean distance
to the target is at least the position tolerance, `update` returns RUNNING,
publishing zero linear velocity with clamped proportional angular velocity
when the absolute normalized bearing error exceeds π/2, and otherwise
forward velocity proportional to the remaining distance (clamped to the
maximum) with a clamped proportional heading correction; when the distance
is below the tolerance and no target orientation was specified, `update`
publishes a stop command and returns SUCCESS. -/
theorem gotoPose_update_control (s : GoToPoseState)
    (hc : s.ros_connected = true) (hp : s.cmdVelPub = true) :
    (s.tolerance_pos ≤ s.dist →
      (Real.pi / 2 < |s.bearingErr| →
        GoToPose.update s = (.running,
          [((0:ℝ), clamp (s.angular_speed_gain * s.bearingErr) s.max_angular_speed)]))
      ∧ (|s.bearingErr| ≤ Real.pi / 2 →
        GoToPose.update s = (.running,
          [(min (s.linear_speed_gain * s.dist) s.max_linear_speed,
            clamp (s.angular_speed_gain * s.bearingErr) s.max_angular_speed)])))
    ∧ (s.dist < s.tolerance_pos → s.target_theta = none →
        GoToPose.update s = (.success, [((0:ℝ), (0:ℝ))])) := by
  constructor
  · intro hdist
    have hnlt : ¬ s.dist < s.tolerance_pos := not_lt.mpr hdist
    constructor
    · intro hb
      simp [GoToPose.update, hc, hnlt, hb, GoToPose.rotateToAngle,
        GoToPose.publishVelocity, hp]
    · intro hb
      have hnb : ¬ Real.pi / 2 < |s.bearingErr| := not_lt.mpr hb
      simp [GoToPose.update, hc, hnlt, hnb, GoToPose.publishVelocity, hp]
  · intro hdist htheta
    simp [GoToPose.update, hc, hdist, htheta, GoToPose.stopTurtle,
      GoToPose.publishVelocity, hp]

/-- A connected, set-up `GoToPose` node at the origin facing the target
(3, 0), used to witness the control-law theorem. -/
noncomputable def gotoControlWitnessState : GoToPoseState :=
  { GoToPose.init "goto" 3 0 none 0.1 0.1 with ros_connected := true, cmdVelPub := true }

/-- C6 witness: at the concrete state the distance (3) is beyond tolerance
and the bearing error is 0, so `update` publishes the drive-forward
command and returns RUNNING. -/
theorem gotoPose_update_control_witness :
    gotoControlWitnessState.tolerance_pos ≤ gotoControlWitnessState.dist
    ∧ |gotoControlWitnessState.bearingErr| ≤ Real.pi / 2
    ∧ GoToPose.update gotoControlWitnessState
      = (.running,
        [(min (gotoControlWitnessState.linear_speed_gain * gotoControlWitnessState.dist)
            gotoControlWitnessState.max_linear_speed,
          clamp (gotoControlWitnessState.angular_speed_gain * gotoControlWitnessState.bearingErr)
            gotoControlWitnessState.max_angular_speed)]) := by
  have hdist : gotoControlWitnessState.dist = 3 := by
    rw [GoToPoseState.dist]
    show Real.sqrt (((3:ℝ) - 0) ^ 2 + ((0:ℝ) - 0) ^ 2) = 3
    rw [show ((3:ℝ) - 0) ^ 2 + ((0:ℝ) - 0) ^ 2 = 3 ^ 2 by norm_num]
    exact Real.sqrt_sq (by norm_num)
  have harg : atan2 ((0:ℝ) - 0) ((3:ℝ) - 0) = 0 := by
    have h3 : atan2 ((0:ℝ) - 0) ((3:ℝ) - 0) = Complex.arg ((3:ℝ) : ℂ) := by
      rw [atan2]
      norm_num
    rw [h3]
    exact Complex.arg_ofReal_of_nonneg (by norm_num)
  have hbe : gotoControlWitnessState.bearingErr = 0 := by
    rw [GoToPoseState.bearingErr]
    show GoToPose.normalizeAngle (atan2 ((0:ℝ) - 0) ((3:ℝ) - 0) - 0) = 0
    rw [harg, sub_zero]
    exact normalizeAngle_eq_self 0 (neg_nonpos.mpr Real.pi_pos.le) Real.pi_pos.le
  have hd : gotoControlWitnessState.tolerance_pos ≤ gotoControlWitnessState.dist := by
    rw [hdist]
    show (0.1:ℝ) ≤ 3
    norm_num
  have hb : |gotoControlWitnessState.bearingErr| ≤ Real.pi / 2 := by
    rw [hbe, abs_zero]
    positivity
  exact ⟨hd, hb, ((gotoPose_update_control gotoControlWitnessState rfl rfl).1 hd).2 hb⟩

end BT
